import Mathlib

/-!
Verification development for the calendar booking assistant
(`app/agents/calendar_agent.py`, `app/services/ai_service.py`,
`app/services/calendar_service.py`).

The Python code is shallowly embedded: free-text processing works on
`List Char` (mirroring Python `str` operations `lower`, `strip`, `in`,
`replace` and the concrete regular expressions used by the agent), datetimes
are day-index / wall-clock records, timedeltas are integer microseconds, and
every collaborator result (calendar availability, event listing, event
creation, LLM extraction) is an explicit argument.
-/

set_option maxHeartbeats 1000000

namespace CalendarAssistant

/-! ### Text helpers: Python str operations on character lists -/

def lowerL (l : List Char) : List Char := l.map Char.toLower

/-- Python str.strip(): drop whitespace from both ends. -/
def stripL (l : List Char) : List Char :=
  ((l.dropWhile Char.isWhitespace).reverse.dropWhile Char.isWhitespace).reverse

/-- Python's substring test `needle in hay` on character lists. -/
def containsSub : List Char → List Char → Bool
  | n, [] => n.isEmpty
  | n, c :: t => n.isPrefixOf (c :: t) || containsSub n t

/-- Python truthiness of an optional string value stored in the entity dict. -/
def truthyO : Option String → Bool
  | some s => !(s == "")
  | none => false

/-- Python str.replace(pat, "") with a non-empty pattern, fuel-driven so that
it is structurally recursive (the fuel `hay.length` always suffices). -/
def removeSubFuel (p : Char) (ps : List Char) : Nat → List Char → List Char
  | 0, l => l
  | _ + 1, [] => []
  | fuel + 1, c :: t =>
    if (p :: ps).isPrefixOf (c :: t) then removeSubFuel p ps fuel (t.drop ps.length)
    else c :: removeSubFuel p ps fuel t

def removeSub (pat : String) (l : List Char) : List Char :=
  match pat.data with
  | [] => l
  | p :: ps => removeSubFuel p ps l.length l

/-! ### Numeric token scanning (the regexes `\d+(?:\.\d+)?` and `\d+`) -/

def digitVal (c : Char) : Nat := c.toNat - 48

/-- Split a leading maximal run of digits from the rest. -/
def digitRun : List Char → (List Char × List Char)
  | [] => ([], [])
  | c :: t =>
    if c.isDigit then
      let r := digitRun t
      (c :: r.1, r.2)
    else ([], c :: t)

def natOfDigits (l : List Char) : Nat := l.foldl (fun a c => 10 * a + digitVal c) 0

/-- Leftmost match of `\d+`, as a natural number. -/
def firstIntToken : List Char → Option Nat
  | [] => none
  | c :: t =>
    if c.isDigit then some (natOfDigits (digitRun (c :: t)).1)
    else firstIntToken t

/-- Leftmost match of `\d+(?:\.\d+)?`: integer part, fractional digits value
and fractional digit count. -/
def firstNumericToken : List Char → Option (Nat × Nat × Nat)
  | [] => none
  | c :: t =>
    if c.isDigit then
      let run := digitRun (c :: t)
      match run.2 with
      | '.' :: r2 =>
        match digitRun r2 with
        | ([], _) => some (natOfDigits run.1, 0, 0)
        | (f, _) => some (natOfDigits run.1, natOfDigits f, f.length)
      | _ => some (natOfDigits run.1, 0, 0)
    else firstNumericToken t

/-! ### Duration parsing

Timedeltas are expressed in integer microseconds, `timedelta`'s resolution;
the fractional-hours branch floors at that resolution (exact whenever the
decimal part is at most six digits, e.g. `1.5`). -/

def usPerMinute : Nat := 60000000

def usPerHour : Nat := 3600000000

/-- Embeds `parse_duration` (calendar_agent.py lines 19-59), as microseconds. -/
def parse_duration (duration_str : String) : Nat :=
  if duration_str = "" then 60 * usPerMinute
  else
    let t := stripL (lowerL duration_str.data)
    let hourish := containsSub "hour".data t || containsSub "hr".data t
    if containsSub "half".data t && hourish then 30 * usPerMinute
    else if containsSub "an hour".data t || t == "hour".data then 60 * usPerMinute
    else if containsSub "quarter".data t && hourish then 15 * usPerMinute
    else if hourish then
      match firstNumericToken t with
      | some q => usPerHour * q.1 + usPerHour * q.2.1 / 10 ^ q.2.2
      | none => 60 * usPerMinute
    else if containsSub "minute".data t || containsSub "min".data t then
      match firstIntToken t with
      | some n => n * usPerMinute
      | none => 30 * usPerMinute
    else if containsSub "thirty".data t then 30 * usPerMinute
    else if containsSub "fifteen".data t then 15 * usPerMinute
    else if containsSub "two hour".data t then 120 * usPerMinute
    else 60 * usPerMinute

/-! ### Time parsing: the concrete regexes of `_parse_time` -/

def skipWs : List Char → List Char
  | [] => []
  | c :: t => if c.isWhitespace then skipWs t else c :: t

/-- Is `am` or `pm` at this position? Returns the meridiem when present
(`true` = pm). -/
def amPmAt : List Char → Option Bool
  | 'a' :: 'm' :: _ => some false
  | 'p' :: 'm' :: _ => some true
  | _ => none

/-- Match `:(\d{2})\s*(am|pm)` after the hour digits. -/
def p1Tail (h : Nat) : List Char → Option (Nat × Nat × Bool)
  | ':' :: d1 :: d2 :: rest =>
    if d1.isDigit && d2.isDigit then
      match amPmAt (skipWs rest) with
      | some pm => some (h, 10 * digitVal d1 + digitVal d2, pm)
      | none => none
    else none
  | _ => none

/-- Match `(\d{1,2}):(\d{2})\s*(am|pm)` at this position (greedy two-digit
hour first, then the one-digit backtrack, as the regex engine does). -/
def matchP1At : List Char → Option (Nat × Nat × Bool)
  | c1 :: c2 :: rest =>
    if c1.isDigit then
      if c2.isDigit then
        match p1Tail (10 * digitVal c1 + digitVal c2) rest with
        | some r => some r
        | none => p1Tail (digitVal c1) (c2 :: rest)
      else p1Tail (digitVal c1) (c2 :: rest)
    else none
  | _ => none

/-- Leftmost match of `(\d{1,2}):(\d{2})\s*(am|pm)` (re.search). -/
def searchP1 : List Char → Option (Nat × Nat × Bool)
  | [] => none
  | c :: t =>
    match matchP1At (c :: t) with
    | some r => some r
    | none => searchP1 t

/-- Match `:(\d{2})` after the hour digits. -/
def p3Tail (h : Nat) : List Char → Option (Nat × Nat)
  | ':' :: d1 :: d2 :: _ =>
    if d1.isDigit && d2.isDigit then some (h, 10 * digitVal d1 + digitVal d2) else none
  | _ => none

/-- Match `(\d{1,2}):(\d{2})` at this position. -/
def matchP3At : List Char → Option (Nat × Nat)
  | c1 :: c2 :: rest =>
    if c1.isDigit then
      if c2.isDigit then
        match p3Tail (10 * digitVal c1 + digitVal c2) rest with
        | some r => some r
        | none => p3Tail (digitVal c1) (c2 :: rest)
      else p3Tail (digitVal c1) (c2 :: rest)
    else none
  | _ => none

/-- Leftmost match of `(\d{1,2}):(\d{2})` (re.search). -/
def searchP3 : List Char → Option (Nat × Nat)
  | [] => none
  | c :: t =>
    match matchP3At (c :: t) with
    | some r => some r
    | none => searchP3 t

/-- Does `(\d{1,2})\s*(?:am|pm)` match at this position? -/
def matchP2At : List Char → Bool
  | c1 :: c2 :: rest =>
    c1.isDigit && ((c2.isDigit && (amPmAt (skipWs rest)).isSome)
      || (amPmAt (skipWs (c2 :: rest))).isSome)
  | _ => false

/-- Does `(\d{1,2})\s*(?:am|pm)` match anywhere (re.search)? -/
def searchP2 : List Char → Bool
  | [] => false
  | c :: t => matchP2At (c :: t) || searchP2 t

/-- Embeds `_parse_time` (calendar_agent.py lines 1043-1101), returning the
(hour, minute) of the datetime it produces (the date part is the current
day and is never consumed by callers). The source's second pattern,
`(\d{1,2})\s*(am|pm)` with two groups, is dispatched to the
"hour and minute without am/pm" branch, where `int("am")`/`int("pm")`
raises ValueError and the loop continues; the pattern therefore never
produces a result and is omitted from the chain. -/
def parse_time (time_str : String) : Nat × Nat :=
  let l := lowerL (stripL time_str.data)
  let step1 : Option (Nat × Nat) :=
    match searchP1 l with
    | some (h, m, pm) =>
      let h2 := if pm && h != 12 then h + 12 else if !pm && h == 12 then 0 else h
      if h2 ≤ 23 && m ≤ 59 then some (h2, m) else none
    | none => none
  match step1 with
  | some r => r
  | none =>
    let step3 : Option (Nat × Nat) :=
      match searchP3 l with
      | some (h, m) =>
        let h2 := if 1 ≤ h && h ≤ 5 then h + 12 else h
        if h2 ≤ 23 && m ≤ 59 then some (h2, m) else none
      | none => none
    match step3 with
    | some r => r
    | none =>
      let step4 : Option (Nat × Nat) :=
        if !l.isEmpty && l.length ≤ 2 && l.all Char.isDigit then
          let h := natOfDigits l
          let h2 := if 1 ≤ h && h ≤ 11 then h + 12 else h
          if h2 ≤ 23 then some (h2, 0) else none
        else none
      match step4 with
      | some r => r
      | none =>
        if containsSub "afternoon".data l then (14, 0)
        else if containsSub "morning".data l then (10, 0)
        else if containsSub "evening".data l then (18, 0)
        else (14, 0)

/-! ### Date parsing -/

def weekdayIndex (t : List Char) : Option Nat :=
  if t = "monday".data then some 0
  else if t = "tuesday".data then some 1
  else if t = "wednesday".data then some 2
  else if t = "thursday".data then some 3
  else if t = "friday".data then some 4
  else if t = "saturday".data then some 5
  else if t = "sunday".data then some 6
  else none

/-- The `if days_ahead <= 0: days_ahead += 7` rolling rule. -/
def rollWeek (d : Int) : Int := if d ≤ 0 then d + 7 else d

/-- Embeds `_parse_date` (calendar_agent.py lines 1002-1041), parameterised
by today's weekday (Monday = 0, as `datetime.weekday()`) and returning the
day offset from today of the produced datetime. -/
def parse_date_offset (w : Nat) (date_str : String) : Int :=
  let t := lowerL date_str.data
  if t = "today".data then 0
  else if t = "tomorrow".data then 1
  else if t = "next week".data then 7
  else
    match weekdayIndex t with
    | some i => rollWeek ((i : Int) - w)
    | none =>
      if "this ".data.isPrefixOf t then
        match weekdayIndex (removeSub "this " t) with
        | some i => rollWeek ((i : Int) - w)
        | none => 0
      else if "next ".data.isPrefixOf t then
        match weekdayIndex (removeSub "next " t) with
        | some i => (i : Int) - w + 7
        | none => 0
      else 0

/-- The inputs `_parse_date` recognises; on anything else it returns today. -/
def dateRecognized (date_str : String) : Bool :=
  let t := lowerL date_str.data
  t == "today".data || t == "tomorrow".data || t == "next week".data
    || (weekdayIndex t).isSome
    || ("this ".data.isPrefixOf t && (weekdayIndex (removeSub "this " t)).isSome)
    || ("next ".data.isPrefixOf t && (weekdayIndex (removeSub "next " t)).isSome)

/-! ### Datetimes, events and availability -/

/-- A datetime: calendar day index (days since the epoch; day 0,
1970-01-01, is a Thursday) plus wall-clock hour and minute. -/
structure DT where
  day : Int
  hour : Nat
  minute : Nat
deriving DecidableEq

/-- Absolute time in microseconds, for datetime comparison/arithmetic. -/
def DT.toAbs (d : DT) : Int :=
  d.day * 86400000000 + (d.hour * 3600000000 + d.minute * 60000000 : Nat)

/-- Python `datetime.weekday()` (Monday = 0) of a day index. -/
def py_weekday (day : Int) : Nat := ((day + 3) % 7).toNat

/-- A calendar event as `_is_slot_available` consumes it: its parsed start
and end instants, in absolute microseconds. Entries whose timestamps fail
to parse are skipped by the source's per-event `except` and are modelled
as absent from the list. -/
structure Event where
  startAbs : Int
  endAbs : Int
deriving DecidableEq

/-- The overlap scan shared by `_is_slot_available` and
`_check_specific_time`: `start_time < event_end and end_time > event_start`
for no listed event. -/
def no_conflict (events : List Event) (s e : Int) : Bool :=
  events.all (fun ev => !(decide (s < ev.endAbs) && decide (e > ev.startAbs)))

/-- `get_events` (calendar_service.py lines 580-638) returns the backend's
formatted events and, when the underlying calendar call raises, the empty
list (lines 636-638). `none` stands for a raising backend. -/
def get_events_result (backend : Option (List Event)) : List Event :=
  backend.getD []

/-- Embeds `_is_slot_available` (calendar_agent.py lines 742-766): list the
events of the day of `start` and report the absence of any overlap.
`eventsOn` is the calendar collaborator's per-day event listing. -/
def is_slot_available (eventsOn : Int → List Event) (start : DT) (endAbs : Int) : Bool :=
  no_conflict (eventsOn start.day) start.toAbs endAbs

/-- Embeds `_check_specific_time` (lines 707-740): place the parsed time on
the target date and scan that day's events for overlap. -/
def check_specific_time (eventsOn : Int → List Event) (date : DT) (time_str : String)
    (durUs : Nat) : Bool :=
  let hm := parse_time time_str
  let start : DT := { day := date.day, hour := hm.1, minute := hm.2 }
  is_slot_available eventsOn start (start.toAbs + durUs)

/-! ### The strftime comparison strings -/

def digitCharL : Nat → Char
  | 0 => '0'
  | 1 => '1'
  | 2 => '2'
  | 3 => '3'
  | 4 => '4'
  | 5 => '5'
  | 6 => '6'
  | 7 => '7'
  | 8 => '8'
  | 9 => '9'
  | _ => '?'

def pad2 (n : Nat) : List Char := [digitCharL (n / 10), digitCharL (n % 10)]

/-- The `strftime('%I:%M %p')` comparison string after the source's
`.replace(' 0', ' ')` (a no-op on this format: its only space precedes A
or P) and the `.lower()` both comparison sites apply. -/
def fmt_cmp (h m : Nat) : List Char :=
  pad2 (if h % 12 = 0 then 12 else h % 12) ++ ':' :: (pad2 m ++ ' ' :: (if h < 12 then "am".data else "pm".data))

/-- Embeds `_format_time_for_comparison` (lines 699-705), lowercased as the
comparison sites do; `_parse_time` is total, so the `except` arm is dead. -/
def format_time_for_comparison (s : String) : List Char :=
  fmt_cmp (parse_time s).1 (parse_time s).2

/-! ### The entity dictionary and the conversation state -/

structure Entities where
  title : Option String := none
  duration : Option String := none
  date : Option String := none
  time : Option String := none
  parsed_date : Option DT := none
  selected_time : Option String := none
  requested_time : Option String := none
  time_confirmed : Bool := false
  attendees : Option (List String) := none
  attendees_confirmed : Bool := false
  selected_day : Option String := none
  day_confirmed : Bool := false
  default_time : Option String := none
  generic_time_used : Option String := none
  failed_default_time : Option String := none
  time_source : Option String := none
  time_range : Option String := none
deriving DecidableEq

/-- A free slot as `get_availability` returns it: ISO start (parsed) and a
display string. -/
structure Slot where
  start : DT
  display : String
deriving DecidableEq

/-- A suggestion entry as the availability/conflict nodes build it. -/
structure OutSlot where
  start : DT
  display : String
  full_display : String
deriving DecidableEq

structure CreatedEvent where
  id : String
  attendees : List String
deriving DecidableEq

structure BookingSummary where
  title : String
  date : String
  time : String
  duration : String
  attendees : List String
deriving DecidableEq

structure AgentState where
  entities : Entities := {}
  conversation_stage : String := "initial"
  user_intent : String := ""
  calendar_availability : Option (List OutSlot) := none
  current_booking : Option CreatedEvent := none
  booking_summary : Option BookingSummary := none
  error_message : Option String := none
  conflict_message : Option String := none
  default_time_failed : Option String := none
  generic_time_failed : Option String := none
deriving DecidableEq

/-! ### Routing -/

/-- Embeds `_needs_specific_day` (lines 564-572). -/
def needs_specific_day (e : Entities) : Bool :=
  containsSub "next week".data (lowerL (e.date.getD "").data) && !e.day_confirmed

/-- Embeds `_has_complete_booking_info` (lines 574-579): Python truthiness
of title, duration, attendees_confirmed, selected_time and parsed_date. -/
def has_complete_booking_info (e : Entities) : Bool :=
  truthyO e.title && truthyO e.duration && e.attendees_confirmed
    && truthyO e.selected_time && e.parsed_date.isSome

/-- Embeds `_route_next_step` (lines 529-562). -/
def route_next_step (st : AgentState) : String :=
  if st.user_intent = "confirm_booking" then
    if has_complete_booking_info st.entities then "create_booking" else "generate_response"
  else if st.user_intent = "cancel_booking" || st.conversation_stage = "booking_cancelled" then
    "generate_response"
  else if st.conversation_stage = "booking_conflict" then "handle_conflict"
  else if !truthyO st.entities.title then "ask_title"
  else if !truthyO st.entities.duration then "ask_duration"
  else if needs_specific_day st.entities then "ask_specific_day"
  else if !truthyO st.entities.selected_time then "check_availability"
  else if !st.entities.attendees_confirmed then "ask_attendees"
  else "confirm_booking"

/-! ### Message classification -/

/-- `message.lower().strip()`, the key the exact-match classifiers use. -/
def msgKey (message : String) : List Char := stripL (lowerL message.data)

/-- Embeds `_is_confirmation` (calendar_agent.py lines 487-491). -/
def is_confirmation (message : String) : Bool :=
  ["yes", "yep", "yeah", "confirm", "book it", "schedule it", "ok", "okay", "sure"].any
    (fun s => msgKey message == s.data)

/-- Embeds `_is_cancellation` (calendar_agent.py lines 339-346). -/
def is_cancellation (message : String) : Bool :=
  (["no, cancel", "no cancel", "cancel it"].any
      (fun s => containsSub s.data (msgKey message)))
    || (["no", "cancel", "nevermind", "no thanks", "not now", "abort", "stop"].any
      (fun s => msgKey message == s.data))

/-- Embeds `_is_no_attendees_response` (lines 523-527). -/
def is_no_attendees_response (message : String) : Bool :=
  ["no", "none", "just me", "only me", "no one", "nobody"].any
    (fun s => msgKey message == s.data)

/-- Embeds `AIService._is_simple_confirmation` (ai_service.py lines 113-117). -/
def is_simple_confirmation (message : String) : Bool :=
  ["yes", "yep", "yeah", "confirm", "book it", "schedule it", "ok", "okay", "sure", "go ahead"].any
    (fun s => msgKey message == s.data)

/-- Embeds `AIService._is_simple_rejection` (ai_service.py lines 119-123). -/
def is_simple_rejection (message : String) : Bool :=
  ["no", "nope", "cancel", "nevermind", "not now"].any
    (fun s => msgKey message == s.data)

/-- Embeds `AIService._determine_intent` (ai_service.py lines 383-394). -/
def determine_intent (message : String) : String :=
  let t := lowerL message.data
  if ["book", "schedule", "arrange", "set up"].any (fun s => containsSub s.data t) then
    "book_appointment"
  else if ["available", "free", "check"].any (fun s => containsSub s.data t) then
    "check_availability"
  else if ["yes", "confirm", "book it"].any (fun s => containsSub s.data t) then
    "confirm_booking"
  else "provide_info"

/-- The deterministic intent of `extract_intent_and_entities` (ai_service.py
lines 75-111): the exact confirmation / rejection short-circuits, then the
rule-based fallback. The delegated LLM call is an external collaborator,
out of the core's scope; this is the rule-based path the service falls back
to. -/
def extract_intent_det (message : String) : String :=
  if is_simple_confirmation message then "confirm_booking"
  else if is_simple_rejection message then "reject"
  else determine_intent message

/-- The guard of `_extract_info_node`'s confirmation fast path (line 220):
`intent == "confirm_booking" or self._is_confirmation(last_message)`. -/
def confirm_guard (message : String) : Bool :=
  extract_intent_det message == "confirm_booking" || is_confirmation message

/-- The guard of `_extract_info_node`'s cancellation path (line 225), which
is only reached past the confirmation fast path:
`intent == "reject" or self._is_cancellation(last_message)`. -/
def cancel_guard (message : String) : Bool :=
  !confirm_guard message
    && (extract_intent_det message == "reject" || is_cancellation message)

/-- Embeds the confirmation / cancellation fast paths of
`_extract_info_node` (calendar_agent.py lines 219-234). Both paths return
the updated state immediately, so on such messages this is the whole node;
on any other message the node continues with entity merging (embedded
separately as `merge_entities`) and this returns `none`. -/
def extract_info_early (message : String) (st : AgentState) : Option AgentState :=
  if confirm_guard message then
    some { st with user_intent := "confirm_booking" }
  else if extract_intent_det message == "reject" || is_cancellation message then
    some { st with
           user_intent := "cancel_booking",
           conversation_stage := "booking_cancelled",
           entities := {},
           calendar_availability := none,
           current_booking := none,
           booking_summary := none }
  else none

/-! ### Entity merging -/

def py_title_go : Bool → List Char → List Char
  | _, [] => []
  | prev, c :: t =>
    if c.isAlpha then (if prev then c.toLower else c.toUpper) :: py_title_go true t
    else c :: py_title_go false t

/-- Python `str.title()` (on ASCII letters): uppercase a letter after a
non-letter, lowercase the rest. -/
def py_title (s : String) : String := ⟨py_title_go false s.data⟩

/-- Embeds `_is_specific_time` (lines 422-439). -/
def is_specific_time (time_str : String) : Bool :=
  let t := lowerL (stripL time_str.data)
  if ["morning", "afternoon", "evening", "night"].any (fun s => t == s.data) then false
  else (searchP1 t).isSome || searchP2 t

/-- A candidate entity value from the extractor: the merge loop treats
strings and lists differently for `title` and `attendees`. -/
inductive CandVal where
  | str (s : String)
  | list (l : List String)
deriving DecidableEq

/-- The candidate entities of one turn (`new_entities` in the source);
scalar keys carry the extractor's string values. -/
structure Cand where
  title : Option CandVal := none
  duration : Option String := none
  date : Option String := none
  time : Option String := none
  attendees : Option CandVal := none
deriving DecidableEq

/-- The merge guard
`value and str(value).strip() and str(value) not in ["null", "None", ""]`
for a string value. -/
def should_merge_str (v : String) : Bool :=
  !(v == "") && !((stripL v.data).isEmpty) && !(v == "null") && !(v == "None")

/-- The same guard for any candidate value: a non-empty list is truthy and
its Python `str(...)` rendering is bracketed, hence never blank, "null" or
"None". -/
def should_merge_val : CandVal → Bool
  | .str s => should_merge_str s
  | .list l => !l.isEmpty

def title_text : CandVal → String
  | .str s => s
  | .list l => String.intercalate " " l

/-- Embeds the merge loop of `_extract_info_node` (lines 269-296). `now`
stands for the `datetime.now()` that `_parse_date` consults. -/
def merge_entities (now : DT) (e : Entities) (c : Cand) : Entities :=
  let e1 := match c.title with
    | some v =>
      if should_merge_val v then { e with title := some (py_title (title_text v)) } else e
    | none => e
  let e2 := match c.duration with
    | some v => if should_merge_str v then { e1 with duration := some v } else e1
    | none => e1
  let e3 := match c.date with
    | some v =>
      if should_merge_str v then
        { e2 with
          date := some v,
          parsed_date := some { now with day := now.day + parse_date_offset (py_weekday now.day) v } }
      else e2
    | none => e2
  let e4 := match c.time with
    | some v =>
      if should_merge_str v then
        { e3 with
          time := some v, requested_time := some v,
          selected_time := if is_specific_time v then some v else e3.selected_time }
      else e3
    | none => e3
  match c.attendees with
  | some v =>
    if should_merge_val v then
      { e4 with attendees := some (match v with
          | .str s => if (stripL s.data).isEmpty then [] else [s]
          | .list l => l) }
    else e4
  | none => e4

/-! ### Date display (strftime `%A, %B %d`) -/

def weekday_display_names : List String :=
  ["Monday", "Tuesday", "Wednesday", "Thursday", "Friday", "Saturday", "Sunday"]

def month_names : List String :=
  ["January", "February", "March", "April", "May", "June",
   "July", "August", "September", "October", "November", "December"]

/-- Gregorian civil date (year, month, day-of-month) from a day index
(days since 1970-01-01), the standard era-based computation. -/
def civil_from_days (z0 : Int) : Int × Nat × Nat :=
  let z := z0 + 719468
  let era : Int := (if 0 ≤ z then z else z - 146096) / 146097
  let doe : Int := z - era * 146097
  let yoe : Int := (doe - doe / 1460 + doe / 36524 - doe / 146096) / 365
  let doy : Int := doe - (365 * yoe + yoe / 4 - yoe / 100)
  let mp : Int := (5 * doy + 2) / 153
  let d : Int := doy - (153 * mp + 2) / 5 + 1
  let m : Int := if mp < 10 then mp + 3 else mp - 9
  (yoe + era * 400 + (if m ≤ 2 then 1 else 0), m.toNat, d.toNat)

def pad2s (n : Nat) : String := ⟨pad2 n⟩

/-- `strftime('%A, %B %d')` of a datetime's day. -/
def date_display_full (day : Int) : String :=
  (weekday_display_names.getD (py_weekday day) "") ++ ", "
    ++ (month_names.getD ((civil_from_days day).2.1 - 1) "") ++ " "
    ++ pad2s (civil_from_days day).2.2

/-! ### The availability and conflict nodes -/

/-- The `if failed_time:` / `if conflicted_time:` truthiness gate before the
exclusion comparison. -/
def excl_of (o : Option String) : Option String :=
  match o with
  | some f => if f = "" then none else some f
  | none => none

/-- The per-slot test of the search loops in `_check_availability_node`
(lines 650-670) and `_handle_conflict_node` (lines 787-805): on the target
day, not at the excluded formatted time, and re-verified conflict-free. -/
def slot_ok (eventsOn : Int → List Event) (target : DT) (durUs : Nat)
    (excl : Option String) (sl : Slot) : Bool :=
  sl.start.day == target.day
    && (match excl with
        | some f => !(fmt_cmp sl.start.hour sl.start.minute == format_time_for_comparison f)
        | none => true)
    && is_slot_available eventsOn sl.start (sl.start.toAbs + durUs)

/-- The suggestion record the loops append for a kept slot. -/
def decorate (sl : Slot) : OutSlot :=
  { start := sl.start, display := sl.display,
    full_display := date_display_full sl.start.day ++ ": " ++ sl.display }

def suitable_slots (eventsOn : Int → List Event) (target : DT) (durUs : Nat)
    (excl : Option String) (avail : List Slot) : List OutSlot :=
  (avail.filter (slot_ok eventsOn target durUs excl)).map decorate

/-- The tail of `_check_availability_node` (lines 640-691): full slot search,
cap to 8, and the stage choice driven by whether a generic-time default was
tried. `e` already carries `failed_default_time` when the probe failed. -/
def availability_finish (eventsOn : Int → List Event) (avail : List Slot) (target : DT)
    (durUs : Nat) (tryDefault : Bool) (dflt gt : String) (e : Entities)
    (st : AgentState) : AgentState :=
  let suitable := suitable_slots eventsOn target durUs (excl_of e.failed_default_time) avail
  if suitable.isEmpty then
    { st with
      entities := e, calendar_availability := some [],
      conversation_stage := "no_availability" }
  else
    { st with
      entities := e, calendar_availability := some (suitable.take 8),
      conversation_stage := if tryDefault then "showing_alternative_slots" else "showing_slots",
      default_time_failed := if tryDefault then some dflt else st.default_time_failed,
      generic_time_failed := if tryDefault then some gt else st.generic_time_failed }

/-- Embeds `_check_availability_node` (calendar_agent.py lines 599-697).
`now` is `datetime.now()`, `eventsOn` the calendar's per-day event listing
and `avail` the result of its `get_availability` call for the target day.
The collaborator-exception path (stage `availability_error`) is not
modelled: the embedded collaborator results are total. -/
def check_availability_node (now : DT) (eventsOn : Int → List Event) (avail : List Slot)
    (st : AgentState) : AgentState :=
  let e0 := st.entities
  let target := e0.parsed_date.getD now
  let e1 := if e0.parsed_date.isSome then e0
    else { e0 with parsed_date := some now, date := some "today" }
  let durUs := parse_duration (e1.duration.getD "1 hour")
  let tryDefault := truthyO e1.default_time && truthyO e1.generic_time_used
  let dflt := e1.default_time.getD ""
  if tryDefault then
    if check_specific_time eventsOn target dflt durUs then
      { st with
        conversation_stage := "time_confirmed",
        entities := { e1 with
          selected_time := some dflt, time_confirmed := true,
          time_source := some ("default_" ++ e1.generic_time_used.getD "") } }
    else
      availability_finish eventsOn avail target durUs true dflt (e1.generic_time_used.getD "")
        { e1 with failed_default_time := some dflt } st
  else
    availability_finish eventsOn avail target durUs false dflt (e1.generic_time_used.getD "") e1 st

/-- Embeds `_handle_conflict_node` (calendar_agent.py lines 768-823). With
no parsed date the source's `target_date.replace` raises and the `except`
arm sets `conflict_error`. -/
def handle_conflict_node (eventsOn : Int → List Event) (avail : List Slot)
    (st : AgentState) : AgentState :=
  match st.entities.parsed_date with
  | none => { st with conversation_stage := "conflict_error" }
  | some td =>
    let durUs := parse_duration (st.entities.duration.getD "1 hour")
    let conflicted := st.entities.selected_time.getD ""
    let suitable := suitable_slots eventsOn td durUs
      (excl_of (some conflicted)) avail
    let msg := "The selected time slot (" ++ conflicted ++ ") is no longer available"
    if suitable.isEmpty then
      { st with
        calendar_availability := some [],
        conversation_stage := "no_alternatives", conflict_message := some msg }
    else
      { st with
        calendar_availability := some (suitable.take 8),
        conversation_stage := "showing_alternative_slots", conflict_message := some msg }

/-- Embeds `_create_booking_node` (calendar_agent.py lines 870-946). The
Bool records whether the calendar collaborator's `create_event` was
invoked; `createResult` is its would-be result (`none` when it returns no
record). The returned record's attendee entries are already plain email
strings, standing for the source's normalisation of dict entries. -/
def create_booking_node (eventsOn : Int → List Event) (createResult : Option CreatedEvent)
    (st : AgentState) : AgentState × Bool :=
  let e := st.entities
  let title := e.title.getD "Meeting"
  let duration_str := e.duration.getD "1 hour"
  let selected_time := e.selected_time.getD ""
  match e.parsed_date with
  | none =>
    ({ st with
       conversation_stage := "booking_failed",
       error_message := some "Missing required booking information" }, false)
  | some td =>
    if title = "" || duration_str = "" || selected_time = "" then
      ({ st with
         conversation_stage := "booking_failed",
         error_message := some "Missing required booking information" }, false)
    else
      let durUs := parse_duration duration_str
      let hm := parse_time selected_time
      let start : DT := { day := td.day, hour := hm.1, minute := hm.2 }
      if !is_slot_available eventsOn start (start.toAbs + durUs) then
        ({ st with
           conversation_stage := "booking_conflict",
           conflict_message := some ("The selected time slot (" ++ selected_time
             ++ ") is no longer available") }, false)
      else
        match createResult with
        | some ev =>
          if ev.id ≠ "" then
            ({ st with
               current_booking := some ev,
               conversation_stage := "booking_confirmed" }, true)
          else ({ st with conversation_stage := "booking_failed" }, true)
        | none => ({ st with conversation_stage := "booking_failed" }, true)

/-! ### The template response renderer -/

/-- The `context` dict `_generate_response_node` assembles (lines 958-969). -/
structure Ctx where
  stage : String := ""
  entities : Entities := {}
  availability : Option (List OutSlot) := none
  booking : Option CreatedEvent := none
  booking_summary : Option BookingSummary := none
  error_message : Option String := none
  conflict_message : Option String := none
  default_time_failed : Option String := none
  generic_time_failed : Option String := none
deriving DecidableEq

/-- `if availability and len(availability) > 0`. -/
def truthyAvail : Option (List OutSlot) → Bool
  | some l => !l.isEmpty
  | none => false

/-- `parsed_date.strftime('%A, %B %d') if parsed_date else entities.get("date", dflt)`. -/
def entity_date_display (e : Entities) (dflt : String) : String :=
  match e.parsed_date with
  | some pd => date_display_full pd.day
  | none => e.date.getD dflt

/-- Embeds `AIService._generate_fallback_response` (ai_service.py lines
751-768). -/
def generate_fallback_response (ctx : Ctx) : String :=
  if ctx.stage = "asking_title" then "What would you like to discuss in this meeting?"
  else if ctx.stage = "asking_duration" then "How long should the meeting be?"
  else if ctx.stage = "asking_specific_day" then "Which day would you prefer?"
  else if ctx.stage = "showing_slots" then "I'm checking available time slots for you."
  else if ctx.stage = "showing_alternative_slots" then "Here are some alternative times:"
  else if ctx.stage = "no_availability" then "No slots available for that day. Try another date?"
  else if ctx.stage = "asking_attendees" then "Who should I invite to this meeting?"
  else if ctx.stage = "awaiting_confirmation" then "Should I go ahead and book this meeting?"
  else if ctx.stage = "booking_confirmed" then "✅ Your meeting has been booked!"
  else if ctx.stage = "booking_failed" then "❌ I couldn't book the meeting. Let's try again."
  else "How can I help you schedule a meeting?"

/-- The AIService object's mutable attributes that exist alongside the
template renderer (its rate-limit counter and window). The renderer's body
never reads them. -/
structure AIServiceHiddenState where
  request_count : Nat := 0
  last_reset : Int := 0
deriving DecidableEq

/-- Embeds `AIService._generate_template_response` (ai_service.py lines
592-680), the deterministic template path of the Response Renderer. The
first argument mirrors the service object's mutable state; the body is a
function of the context argument alone, exactly as in the source. -/
def generate_template_response (_ai : AIServiceHiddenState) (ctx : Ctx) : String :=
  if truthyO ctx.error_message then
    "I encountered an issue: " ++ ctx.error_message.getD "" ++ ". Let's try again."
  else if truthyO ctx.conflict_message then
    (if truthyAvail ctx.availability then
      ctx.conflict_message.getD "" ++ ". Here are some alternative times available for your '"
        ++ ctx.entities.title.getD "meeting" ++ "':"
    else
      ctx.conflict_message.getD ""
        ++ ". Unfortunately, there are no other available slots for that day. Would you like to try a different date?")
  else if ctx.stage = "asking_title" then "What's the purpose or topic of your meeting?"
  else if ctx.stage = "asking_duration" then
    "How long should your '" ++ ctx.entities.title.getD "meeting"
      ++ "' be? (e.g., 30 minutes, 1 hour, 2 hours)"
  else if ctx.stage = "asking_specific_day" then
    "Which day next week would you like to schedule your '" ++ ctx.entities.title.getD "meeting"
      ++ "' (" ++ ctx.entities.duration.getD "meeting"
      ++ ")? (e.g., Monday, Tuesday, Wednesday, Thursday, Friday)"
  else if ctx.stage = "showing_slots" || ctx.stage = "showing_alternative_slots" then
    let title := ctx.entities.title.getD "meeting"
    let duration := ctx.entities.duration.getD "1 hour"
    let date_display := entity_date_display ctx.entities "the selected day"
    if truthyAvail ctx.availability then
      if ctx.stage = "showing_alternative_slots" then
        if truthyO ctx.default_time_failed && truthyO ctx.generic_time_failed then
          "The " ++ ctx.generic_time_failed.getD "" ++ " slot (" ++ ctx.default_time_failed.getD ""
            ++ ") is already taken. Here are other available " ++ duration ++ " slots for your '"
            ++ title ++ "' on " ++ date_display ++ ":"
        else
          "Here are alternative " ++ duration ++ " slots available for your '" ++ title
            ++ "' on " ++ date_display ++ ". Please select a time:"
      else
        "Here are available " ++ duration ++ " slots for your '" ++ title ++ "' on "
          ++ date_display ++ ". Please select a time:"
    else
      "I'm checking availability for your '" ++ title ++ "' on " ++ date_display ++ "..."
  else if ctx.stage = "no_availability" then
    "I couldn't find any available slots for your '" ++ ctx.entities.title.getD "meeting"
      ++ "' on " ++ entity_date_display ctx.entities "that day"
      ++ ". Would you like to try a different date?"
  else if ctx.stage = "no_alternatives" then
    "I couldn't find any alternative time slots for that day. Would you like to try a different date?"
  else if ctx.stage = "asking_attendees" then
    let title := ctx.entities.title.getD "meeting"
    let date_display := entity_date_display ctx.entities "the selected day"
    if truthyO ctx.entities.selected_time then
      "Great! I'll schedule your '" ++ title ++ "' for " ++ ctx.entities.selected_time.getD ""
        ++ " on " ++ date_display
        ++ ". Who should I invite? (Enter email addresses, or say 'no' if it's just you)"
    else
      "Who should I invite to your '" ++ title
        ++ "' meeting? (Enter email addresses, or say 'no' if it's just you)"
  else if ctx.stage = "awaiting_confirmation" then
    let s := ctx.booking_summary.getD
      { title := "Meeting", date := "", time := "", duration := "", attendees := [] }
    let attendees_text := if s.attendees.isEmpty then "Just you"
      else String.intercalate ", " s.attendees
    "Please confirm your booking:\n\n**" ++ s.title ++ "**\nDate: " ++ s.date
      ++ "\nTime: " ++ s.time ++ "\nDuration: " ++ s.duration ++ "\nAttendees: "
      ++ attendees_text ++ "\n\nShould I book this meeting?"
  else if ctx.stage = "booking_confirmed" then
    if (match ctx.booking with | some b => !(b.id == "") | none => false) then
      "✅ **Meeting Successfully Booked!**\n\nYour meeting has been added to your calendar. Invitations have been sent to all attendees."
    else "✅ Your meeting has been scheduled successfully!"
  else if ctx.stage = "booking_failed" then
    "❌ I couldn't complete the booking. Let's try again. What meeting would you like to schedule?"
  else generate_fallback_response ctx

/-! ### Helper lemmas -/

lemma containsSub_correct (n h : List Char) : containsSub n h = true ↔ n <:+: h := by
  induction h with
  | nil => simp [containsSub, List.isEmpty_iff]
  | cons c t ih =>
    rw [containsSub, Bool.or_eq_true, List.infix_cons_iff, ih, List.isPrefixOf_iff_prefix]

lemma containsSub_self (l : List Char) : containsSub l l = true :=
  (containsSub_correct l l).mpr (List.infix_refl l)

lemma containsSub_of_sub {a b t : List Char} (hab : containsSub a b = true)
    (hbt : containsSub b t = true) : containsSub a t = true :=
  (containsSub_correct a t).mpr
    (((containsSub_correct a b).mp hab).trans ((containsSub_correct b t).mp hbt))

lemma decorate_start (sl : Slot) : (decorate sl).start = sl.start := rfl

lemma mem_suitable_slots {eventsOn : Int → List Event} {target : DT} {durUs : Nat}
    {excl : Option String} {avail : List Slot} {sl : OutSlot}
    (h : sl ∈ suitable_slots eventsOn target durUs excl avail) :
    sl.start.day = target.day
      ∧ ∀ f, excl = some f →
          fmt_cmp sl.start.hour sl.start.minute ≠ format_time_for_comparison f := by
  unfold suitable_slots at h
  obtain ⟨s0, hs0, rfl⟩ := List.mem_map.mp h
  obtain ⟨_, hok⟩ := List.mem_filter.mp hs0
  unfold slot_ok at hok
  simp only [Bool.and_eq_true] at hok
  obtain ⟨⟨hday, hexcl⟩, _⟩ := hok
  refine ⟨beq_iff_eq.mp hday, ?_⟩
  intro f hf
  rw [hf] at hexcl
  simpa using hexcl

lemma take8_length_le {α : Type} (L : List α) : (L.take 8).length ≤ 8 := by
  simp [List.length_take]

lemma take8_isEmpty {α : Type} (L : List α) (h : L.isEmpty = false) :
    (L.take 8).isEmpty = false := by
  cases L with
  | nil => simp at h
  | cons a t => simp [List.take]

lemma availability_finish_spec (eventsOn : Int → List Event) (avail : List Slot)
    (target : DT) (durUs : Nat) (tryDefault : Bool) (dflt gt : String)
    (e : Entities) (st : AgentState) :
    ∃ L, (availability_finish eventsOn avail target durUs tryDefault dflt gt e st).calendar_availability = some L
      ∧ L.length ≤ 8
      ∧ (∀ sl ∈ L, sl.start.day = target.day
          ∧ ∀ f, excl_of e.failed_default_time = some f →
              fmt_cmp sl.start.hour sl.start.minute ≠ format_time_for_comparison f)
      ∧ (availability_finish eventsOn avail target durUs tryDefault dflt gt e st).conversation_stage
          = (if L.isEmpty then "no_availability"
             else if tryDefault then "showing_alternative_slots" else "showing_slots") := by
  unfold availability_finish
  set S := suitable_slots eventsOn target durUs (excl_of e.failed_default_time) avail with hS
  by_cases hemp : S.isEmpty = true
  · rw [if_pos hemp]
    exact ⟨[], rfl, by simp, by simp, by simp⟩
  · rw [if_neg hemp]
    refine ⟨S.take 8, rfl, take8_length_le _, ?_, ?_⟩
    · intro sl hsl
      exact mem_suitable_slots (hS ▸ List.take_subset 8 S hsl)
    · have hne : (S.take 8).isEmpty = false := by
        apply take8_isEmpty
        revert hemp
        cases S.isEmpty <;> simp
      simp [hne]

/-! ### Claim theorems -/

/-- Claim C1: with a confirmation intent the router goes to booking creation
iff the completeness predicate (title, duration, attendees_confirmed,
selected_time, parsed_date all present) holds, an incomplete confirmation
re-renders instead, and an entity set lacking parsed_date never routes to
booking creation from any state. -/
theorem route_confirm_iff_complete (st : AgentState) :
    (st.user_intent = "confirm_booking" →
      ((route_next_step st = "create_booking") ↔ has_complete_booking_info st.entities = true)
      ∧ (has_complete_booking_info st.entities = false →
          route_next_step st = "generate_response"))
    ∧ (st.entities.parsed_date = none → route_next_step st ≠ "create_booking") := by
  constructor
  · intro hint
    unfold route_next_step
    rw [if_pos hint]
    constructor
    · cases hc : has_complete_booking_info st.entities <;> simp [hc]
    · intro h
      simp [h]
  · intro hpd
    have hcomp : has_complete_booking_info st.entities = false := by
      unfold has_complete_booking_info
      rw [hpd]
      simp
    unfold route_next_step
    simp only [hcomp, Bool.false_eq_true, if_false]
    repeat' split
    all_goals decide

/-- Claim C1 witness: a complete entity set with confirmation intent routes
to booking creation. -/
theorem route_confirm_iff_complete_witness :
    route_next_step
      { entities :=
          { title := some "Sync", duration := some "1 hour",
            attendees_confirmed := true, selected_time := some "3:00 PM",
            parsed_date := some { day := 0, hour := 0, minute := 0 } },
        user_intent := "confirm_booking" } = "create_booking" :=
  ((route_confirm_iff_complete _).1 rfl).1.mpr (by decide)

/-- Claim C8 (code bug record): the spec's `"3 PM" → 15:00` fails — the
`H am/pm` pattern's match is dispatched by group count to the
hour-and-minute branch, `int("pm")` raises, the pattern is skipped and the
input falls through to the 14:00 fallback. The remaining documented values
hold. -/
theorem parse_time_values :
    parse_time "3 PM" = (14, 0)
    ∧ parse_time "3:00 PM" = (15, 0)
    ∧ parse_time "15:00" = (15, 0)
    ∧ parse_time "3" = (15, 0)
    ∧ parse_time "afternoon" = (14, 0)
    ∧ parse_time "morning" = (10, 0)
    ∧ parse_time "evening" = (18, 0)
    ∧ parse_time "xyzzy" = (14, 0) := by decide

/-- Claim C9: slot re-verification reports a slot available whenever the
day's event list is empty; since a failing events backend yields the empty
list, every candidate slot then verifies as conflict-free. -/
theorem slot_reverification_empty_events (eventsOn : Int → List Event) (s : DT) (e : Int)
    (h : eventsOn s.day = get_events_result none) :
    is_slot_available eventsOn s e = true := by
  unfold is_slot_available no_conflict
  rw [h]
  rfl

/-- Claim C9 witness. -/
theorem slot_reverification_empty_events_witness :
    is_slot_available (fun _ => get_events_result none)
      { day := 0, hour := 9, minute := 0 } 1 = true :=
  slot_reverification_empty_events _ _ _ rfl

/-- Claim C10: the template-path Response Renderer is a function of its
context argument alone — two calls under arbitrary (different) hidden
service states, with identical context, render identical text. -/
theorem template_renderer_deterministic (a1 a2 : AIServiceHiddenState) (ctx : Ctx) :
    generate_template_response a1 ctx = generate_template_response a2 ctx := rfl

/-- Claim C7: the duration parser maps `"30 minutes"`, `"half an hour"`,
`"1.5 hours"` and the empty string to 30, 30, 90 and 60 minutes, and any
input mentioning none of its keywords yields the one-hour default — it is
total by construction (a Lean function), mirroring that the source raises
no exception. -/
theorem parse_duration_rules :
    parse_duration "30 minutes" = 30 * usPerMinute
    ∧ parse_duration "half an hour" = 30 * usPerMinute
    ∧ parse_duration "1.5 hours" = 90 * usPerMinute
    ∧ parse_duration "" = 60 * usPerMinute
    ∧ ∀ s : String,
        (∀ pat ∈ ["hour", "hr", "min", "thirty", "fifteen"],
          containsSub pat.data (stripL (lowerL s.data)) = false) →
        parse_duration s = 60 * usPerMinute := by
  refine ⟨by decide, by decide, by decide, by decide, ?_⟩
  intro s h
  by_cases hs : s = ""
  · simp [parse_duration, hs]
  · have hhour := h "hour" (by simp)
    have hhr := h "hr" (by simp)
    have hmin := h "min" (by simp)
    have hthirty := h "thirty" (by simp)
    have hfifteen := h "fifteen" (by simp)
    have han : containsSub "an hour".data (stripL (lowerL s.data)) = false := by
      rw [Bool.eq_false_iff]
      intro hc
      exact Bool.eq_false_iff.mp hhour (containsSub_of_sub (by decide) hc)
    have hminute : containsSub "minute".data (stripL (lowerL s.data)) = false := by
      rw [Bool.eq_false_iff]
      intro hc
      exact Bool.eq_false_iff.mp hmin (containsSub_of_sub (by decide) hc)
    have htwo : containsSub "two hour".data (stripL (lowerL s.data)) = false := by
      rw [Bool.eq_false_iff]
      intro hc
      exact Bool.eq_false_iff.mp hhour (containsSub_of_sub (by decide) hc)
    have hne : (stripL (lowerL s.data) == "hour".data) = false := by
      rw [Bool.eq_false_iff]
      intro hc
      have heq : stripL (lowerL s.data) = "hour".data := beq_iff_eq.mp hc
      have : containsSub "hour".data (stripL (lowerL s.data)) = true := by
        rw [heq]
        exact containsSub_self _
      exact Bool.eq_false_iff.mp hhour this
    simp only [parse_duration, if_neg hs, hhour, hhr, hmin, hthirty, hfifteen, han, hminute,
      htwo, hne, Bool.or_false, Bool.false_or, Bool.and_false, Bool.false_and, Bool.or_self,
      Bool.false_eq_true, if_false]

/-- Claim C7 witness: an unrecognised input gets the one-hour default. -/
theorem parse_duration_rules_witness : parse_duration "see you later" = 60 * usPerMinute :=
  parse_duration_rules.2.2.2.2 "see you later" (by decide)

/-- The lowercase weekday names, indexed as `datetime.weekday()`. -/
def weekday_name : Fin 7 → String
  | 0 => "monday"
  | 1 => "tuesday"
  | 2 => "wednesday"
  | 3 => "thursday"
  | 4 => "friday"
  | 5 => "saturday"
  | 6 => "sunday"

/-- Claim C6: relative-date resolution — today/tomorrow/next week offsets, a
bare weekday rolled forward past today, "this <weekday>" with the same
rolling rule, "next <weekday>" unconditionally one extra week, the four
documented Wednesday examples, and today for anything unrecognised. -/
theorem parse_date_rules :
    (∀ w : Fin 7,
      parse_date_offset w "today" = 0
      ∧ parse_date_offset w "tomorrow" = 1
      ∧ parse_date_offset w "next week" = 7
      ∧ ∀ i : Fin 7,
          parse_date_offset w (weekday_name i) = rollWeek ((i : Int) - (w : Nat))
          ∧ parse_date_offset w ("this " ++ weekday_name i) = rollWeek ((i : Int) - (w : Nat))
          ∧ parse_date_offset w ("next " ++ weekday_name i) = (i : Int) - (w : Nat) + 7)
    ∧ parse_date_offset 2 "friday" = 2
    ∧ parse_date_offset 2 "monday" = 5
    ∧ parse_date_offset 2 "this friday" = 2
    ∧ parse_date_offset 2 "next friday" = 9
    ∧ ∀ (w : Nat) (s : String), dateRecognized s = false → parse_date_offset w s = 0 := by
  refine ⟨by decide, by decide, by decide, by decide, by decide, ?_⟩
  intro w s h
  unfold dateRecognized at h
  simp only [Bool.or_eq_false_iff] at h
  obtain ⟨⟨⟨⟨⟨h1, h2⟩, h3⟩, h4⟩, h5⟩, h6⟩ := h
  have n1 : ¬ (lowerL s.data = "today".data) := by simpa using h1
  have n2 : ¬ (lowerL s.data = "tomorrow".data) := by simpa using h2
  have n3 : ¬ (lowerL s.data = "next week".data) := by simpa using h3
  unfold parse_date_offset
  rw [if_neg n1, if_neg n2, if_neg n3]
  cases hwi : weekdayIndex (lowerL s.data) with
  | some i =>
    rw [hwi] at h4
    simp at h4
  | none =>
    by_cases hp5 : "this ".data.isPrefixOf (lowerL s.data) = true
    · rw [hp5] at h5
      simp only [Bool.true_and] at h5
      rw [if_pos hp5]
      cases hwi5 : weekdayIndex (removeSub "this " (lowerL s.data)) with
      | some i =>
        rw [hwi5] at h5
        simp at h5
      | none => rfl
    · rw [if_neg hp5]
      by_cases hp6 : "next ".data.isPrefixOf (lowerL s.data) = true
      · rw [hp6] at h6
        simp only [Bool.true_and] at h6
        rw [if_pos hp6]
        cases hwi6 : weekdayIndex (removeSub "next " (lowerL s.data)) with
        | some i =>
          rw [hwi6] at h6
          simp at h6
        | none => rfl
      · rw [if_neg hp6]

/-- Claim C6 witness: an unrecognised phrase resolves to today. -/
theorem parse_date_rules_witness : parse_date_offset 3 "someday soon" = 0 :=
  parse_date_rules.2.2.2.2.2 3 "someday soon" (by decide)

lemma merge_title_eq (now : DT) (e : Entities) (c : Cand) :
    (merge_entities now e c).title
      = (match c.title with
         | some v => if should_merge_val v then some (py_title (title_text v)) else e.title
         | none => e.title) := by
  unfold merge_entities
  rcases c with ⟨ct, cd, cdt, ctm, cat⟩
  cases ct <;> cases cd <;> cases cdt <;> cases ctm <;> cases cat <;>
    (dsimp only; repeat' split) <;> rfl

lemma merge_duration_eq (now : DT) (e : Entities) (c : Cand) :
    (merge_entities now e c).duration
      = (match c.duration with
         | some v => if should_merge_str v then some v else e.duration
         | none => e.duration) := by
  unfold merge_entities
  rcases c with ⟨ct, cd, cdt, ctm, cat⟩
  cases ct <;> cases cd <;> cases cdt <;> cases ctm <;> cases cat <;>
    (dsimp only; repeat' split) <;> rfl

lemma merge_date_eq (now : DT) (e : Entities) (c : Cand) :
    (merge_entities now e c).date
      = (match c.date with
         | some v => if should_merge_str v then some v else e.date
         | none => e.date) := by
  unfold merge_entities
  rcases c with ⟨ct, cd, cdt, ctm, cat⟩
  cases ct <;> cases cd <;> cases cdt <;> cases ctm <;> cases cat <;>
    (dsimp only; repeat' split) <;> rfl

lemma merge_time_eq (now : DT) (e : Entities) (c : Cand) :
    (merge_entities now e c).time
      = (match c.time with
         | some v => if should_merge_str v then some v else e.time
         | none => e.time) := by
  unfold merge_entities
  rcases c with ⟨ct, cd, cdt, ctm, cat⟩
  cases ct <;> cases cd <;> cases cdt <;> cases ctm <;> cases cat <;>
    (dsimp only; repeat' split) <;> rfl

lemma merge_attendees_eq (now : DT) (e : Entities) (c : Cand) :
    (merge_entities now e c).attendees
      = (match c.attendees with
         | some v =>
           if should_merge_val v then
             some (match v with
               | .str s => if (stripL s.data).isEmpty then [] else [s]
               | .list l => l)
           else e.attendees
         | none => e.attendees) := by
  unfold merge_entities
  rcases c with ⟨ct, cd, cdt, ctm, cat⟩
  cases ct <;> cases cd <;> cases cdt <;> cases ctm <;> cases cat <;>
    (dsimp only; repeat' split) <;> rfl

/-- Claim C5: under an arbitrary candidate mapping, the merge loop never
lets an empty, whitespace-only, "null" or "None" candidate overwrite any
scalar field (title, duration, date, time), a passing candidate overwrites
it (title-cased for title), and a non-empty attendees list candidate
replaces the stored list wholesale. -/
theorem merge_scalar_monotone (now : DT) (e : Entities) (c : Cand) :
    (∀ v : String, c.title = some (CandVal.str v) →
      ((stripL v.data).isEmpty = true ∨ v = "null" ∨ v = "None" →
        (merge_entities now e c).title = e.title)
      ∧ (should_merge_str v = true →
        (merge_entities now e c).title = some (py_title v)))
    ∧ (∀ v : String, c.duration = some v →
      ((stripL v.data).isEmpty = true ∨ v = "null" ∨ v = "None" →
        (merge_entities now e c).duration = e.duration)
      ∧ (should_merge_str v = true → (merge_entities now e c).duration = some v))
    ∧ (∀ v : String, c.date = some v →
      ((stripL v.data).isEmpty = true ∨ v = "null" ∨ v = "None" →
        (merge_entities now e c).date = e.date)
      ∧ (should_merge_str v = true → (merge_entities now e c).date = some v))
    ∧ (∀ v : String, c.time = some v →
      ((stripL v.data).isEmpty = true ∨ v = "null" ∨ v = "None" →
        (merge_entities now e c).time = e.time)
      ∧ (should_merge_str v = true → (merge_entities now e c).time = some v))
    ∧ (∀ l : List String, c.attendees = some (CandVal.list l) → l ≠ [] →
        (merge_entities now e c).attendees = some l) := by
  have hbad : ∀ v : String,
      (stripL v.data).isEmpty = true ∨ v = "null" ∨ v = "None" →
      should_merge_str v = false := by
    intro v hrej
    unfold should_merge_str
    rcases hrej with h | h | h <;> simp [h]
  refine ⟨?_, ?_, ?_, ?_, ?_⟩
  · intro v hv
    constructor
    · intro hrej
      rw [merge_title_eq, hv]
      have hsm : should_merge_val (CandVal.str v) = false := hbad v hrej
      simp [hsm]
    · intro hok
      rw [merge_title_eq, hv]
      have hsm : should_merge_val (CandVal.str v) = true := hok
      simp [hsm, title_text]
  · intro v hv
    constructor
    · intro hrej
      rw [merge_duration_eq, hv]
      simp [hbad v hrej]
    · intro hok
      rw [merge_duration_eq, hv]
      simp [hok]
  · intro v hv
    constructor
    · intro hrej
      rw [merge_date_eq, hv]
      simp [hbad v hrej]
    · intro hok
      rw [merge_date_eq, hv]
      simp [hok]
  · intro v hv
    constructor
    · intro hrej
      rw [merge_time_eq, hv]
      simp [hbad v hrej]
    · intro hok
      rw [merge_time_eq, hv]
      simp [hok]
  · intro l hl hne
    rw [merge_attendees_eq, hl]
    have hsm : should_merge_val (CandVal.list l) = true := by
      unfold should_merge_val
      simp [hne]
    simp [hsm]

/-- Claim C5 witness: under a mixed candidate mapping, the empty title
candidate leaves `title = "Sync"` unchanged while the duration candidate
lands, and a `"Planning"` title candidate overwrites. -/
theorem merge_scalar_monotone_witness :
    (merge_entities { day := 0, hour := 9, minute := 0 }
        { title := some "Sync" }
        { title := some (CandVal.str ""), duration := some "45 minutes" }).title = some "Sync"
    ∧ (merge_entities { day := 0, hour := 9, minute := 0 }
        { title := some "Sync" }
        { title := some (CandVal.str ""), duration := some "45 minutes" }).duration
      = some "45 minutes"
    ∧ (merge_entities { day := 0, hour := 9, minute := 0 }
        { title := some "Sync" } { title := some (CandVal.str "Planning") }).title
      = some "Planning" :=
  ⟨((merge_scalar_monotone _ _ _).1 "" rfl).1 (Or.inl (by decide)),
   ((merge_scalar_monotone _ _ _).2.1 "45 minutes" rfl).2 (by decide),
   (((merge_scalar_monotone _ _ _).1 "Planning" rfl).2 (by decide)).trans (by decide)⟩

/-! ### Cancellation classification (claim C4) -/

/-- Modelled from the spec: the claim's stated cancellation trigger — an
exact match of {no, cancel, nevermind, no thanks, not now, abort, stop} or
one of the three substrings. Named for comparison against the code's
behaviour. -/
def claimed_cancellation_trigger (message : String) : Bool :=
  (["no", "cancel", "nevermind", "no thanks", "not now", "abort", "stop"].any
    (fun s => msgKey message == s.data))
  || (["no, cancel", "no cancel", "cancel it"].any
    (fun s => containsSub s.data (msgKey message)))

lemma determine_intent_ne_reject (m : String) :
    (determine_intent m == "reject") = false := by
  have e1 : ("book_appointment" == "reject") = false := rfl
  have e2 : ("check_availability" == "reject") = false := rfl
  have e3 : ("confirm_booking" == "reject") = false := rfl
  have e4 : ("provide_info" == "reject") = false := rfl
  unfold determine_intent
  simp only [apply_ite (· == "reject"), e1, e2, e3, e4, ite_self]

lemma confirm_guard_of_simple_confirmation {m : String}
    (h : is_simple_confirmation m = true) : confirm_guard m = true := by
  unfold confirm_guard extract_intent_det
  rw [h]
  simp

lemma extract_intent_reject_iff (m : String) :
    (extract_intent_det m == "reject")
      = (!is_simple_confirmation m && is_simple_rejection m) := by
  unfold extract_intent_det
  cases hsc : is_simple_confirmation m
  · simp only [Bool.false_eq_true, if_false, Bool.not_false, Bool.true_and]
    cases hsr : is_simple_rejection m
    · simp only [Bool.false_eq_true, if_false]
      exact determine_intent_ne_reject m
    · simp
  · simp

lemma availability_finish_spec2 (eventsOn : Int → List Event) (avail : List Slot)
    (target : DT) (durUs : Nat) (dflt gt : String) (e : Entities) (st : AgentState)
    (f : String) (hf : excl_of e.failed_default_time = some f) :
    ∃ L, (availability_finish eventsOn avail target durUs true dflt gt e st).calendar_availability = some L
      ∧ L.length ≤ 8
      ∧ (∀ sl ∈ L, (sl.start.hour, sl.start.minute) ≠ parse_time f)
      ∧ (availability_finish eventsOn avail target durUs true dflt gt e st).conversation_stage
          = (if L.isEmpty then "no_availability" else "showing_alternative_slots") := by
  obtain ⟨L, h1, h2, h3, h4⟩ := availability_finish_spec eventsOn avail target durUs true dflt gt e st
  refine ⟨L, h1, h2, ?_, by simpa using h4⟩
  intro sl hsl heq
  have hf2 := (h3 sl hsl).2 f hf
  apply hf2
  rw [format_time_for_comparison, ← heq]

lemma availability_finish_spec3 (eventsOn : Int → List Event) (avail : List Slot)
    (target : DT) (durUs : Nat) (dflt gt : String) (e : Entities) (st : AgentState) :
    ∃ L, (availability_finish eventsOn avail target durUs false dflt gt e st).calendar_availability = some L
      ∧ L.length ≤ 8
      ∧ (availability_finish eventsOn avail target durUs false dflt gt e st).conversation_stage
          = (if L.isEmpty then "no_availability" else "showing_slots") := by
  obtain ⟨L, h1, h2, _, h4⟩ := availability_finish_spec eventsOn avail target durUs false dflt gt e st
  exact ⟨L, h1, h2, by simpa using h4⟩

/-- Claim C3: availability check with a recorded generic-time default — a
conflict-free default is accepted directly as selected_time with stage
time_confirmed; a busy default is excluded from the full search, whose
result is capped at 8, yields no_availability when empty and
showing_alternative_slots otherwise; without a generic default the
non-empty result stage is showing_slots. -/
theorem availability_check_flow
    (now : DT) (eventsOn : Int → List Event) (avail : List Slot) :
    (∀ (st : AgentState) (d g : String),
      st.entities.default_time = some d → d ≠ "" →
      st.entities.generic_time_used = some g → g ≠ "" →
      (check_specific_time eventsOn (st.entities.parsed_date.getD now) d
          (parse_duration (st.entities.duration.getD "1 hour")) = true →
        (check_availability_node now eventsOn avail st).conversation_stage = "time_confirmed"
        ∧ (check_availability_node now eventsOn avail st).entities.selected_time = some d)
      ∧ (check_specific_time eventsOn (st.entities.parsed_date.getD now) d
          (parse_duration (st.entities.duration.getD "1 hour")) = false →
        ∃ L, (check_availability_node now eventsOn avail st).calendar_availability = some L
          ∧ L.length ≤ 8
          ∧ (∀ sl ∈ L, (sl.start.hour, sl.start.minute) ≠ parse_time d)
          ∧ (check_availability_node now eventsOn avail st).conversation_stage
              = (if L.isEmpty then "no_availability" else "showing_alternative_slots")))
    ∧ (∀ st : AgentState,
        (truthyO st.entities.default_time && truthyO st.entities.generic_time_used) = false →
        ∃ L, (check_availability_node now eventsOn avail st).calendar_availability = some L
          ∧ L.length ≤ 8
          ∧ (check_availability_node now eventsOn avail st).conversation_stage
              = (if L.isEmpty then "no_availability" else "showing_slots")) := by
  constructor
  · intro st d g hd hd0 hg hg0
    have hdb : (d == "") = false := by simp [hd0]
    have hgb : (g == "") = false := by simp [hg0]
    cases hpd : st.entities.parsed_date with
    | some td =>
      constructor
      · intro hfree
        simp only [Option.getD_some] at hfree
        simp only [check_availability_node, hpd, Option.isSome_some, if_true, hd, hg,
          Option.getD_some, truthyO, hdb, hgb, Bool.not_false, Bool.and_self, Bool.true_and,
          hfree]
        exact ⟨trivial, trivial⟩
      · intro hbusy
        simp only [Option.getD_some] at hbusy
        simp only [check_availability_node, hpd, Option.isSome_some, if_true, hd, hg,
          Option.getD_some, truthyO, hdb, hgb, Bool.not_false, Bool.and_self, hbusy,
          Bool.false_eq_true, if_false]
        exact availability_finish_spec2 _ _ _ _ _ _ _ _ d (by simp [excl_of, hd0])
    | none =>
      constructor
      · intro hfree
        simp only [Option.getD_none] at hfree
        simp only [check_availability_node, hpd, Option.isSome_none, Bool.false_eq_true,
          if_false, hd, hg, Option.getD_some, Option.getD_none, truthyO, hdb, hgb,
          Bool.not_false, Bool.and_self, hfree]
        simp
      · intro hbusy
        simp only [Option.getD_none] at hbusy
        simp only [check_availability_node, hpd, Option.isSome_none, Bool.false_eq_true,
          if_false, hd, hg, Option.getD_some, Option.getD_none, truthyO, hdb, hgb,
          Bool.not_false, Bool.and_self, hbusy]
        exact availability_finish_spec2 _ _ _ _ _ _ _ _ d (by simp [excl_of, hd0])
  · intro st htry
    cases hpd : st.entities.parsed_date with
    | some td =>
      simp only [check_availability_node, hpd, Option.isSome_some, if_true, htry,
        Bool.false_eq_true, if_false]
      exact availability_finish_spec3 _ _ _ _ _ _ _ _
    | none =>
      have htry2 : (truthyO st.entities.default_time && truthyO st.entities.generic_time_used) = false := htry
      simp only [check_availability_node, hpd, Option.isSome_none, Bool.false_eq_true,
        if_false, htry2]
      exact availability_finish_spec3 _ _ _ _ _ _ _ _

lemma handle_conflict_spec (eventsOn : Int → List Event) (avail : List Slot)
    (st : AgentState) (td : DT) (t : String)
    (hpd : st.entities.parsed_date = some td)
    (hsel : st.entities.selected_time = some t) (ht : t ≠ "") :
    ∃ L, (handle_conflict_node eventsOn avail st).calendar_availability = some L
      ∧ L.length ≤ 8
      ∧ (∀ sl ∈ L, sl.start.day = td.day ∧ (sl.start.hour, sl.start.minute) ≠ parse_time t)
      ∧ (handle_conflict_node eventsOn avail st).conversation_stage
          = (if L.isEmpty then "no_alternatives" else "showing_alternative_slots") := by
  unfold handle_conflict_node
  simp only [hpd, hsel, Option.getD_some]
  set S := suitable_slots eventsOn td (parse_duration (st.entities.duration.getD "1 hour"))
    (excl_of (some t)) avail with hS
  by_cases hemp : S.isEmpty = true
  · rw [if_pos hemp]
    exact ⟨[], rfl, by simp, by simp, by simp⟩
  · rw [if_neg hemp]
    refine ⟨S.take 8, rfl, take8_length_le _, ?_, ?_⟩
    · intro sl hsl
      have hm := mem_suitable_slots (hS ▸ List.take_subset 8 S hsl)
      refine ⟨hm.1, ?_⟩
      intro heq
      have hfmt := hm.2 t (by simp [excl_of, ht])
      apply hfmt
      rw [format_time_for_comparison, ← heq]
    · have hne : (S.take 8).isEmpty = false := by
        apply take8_isEmpty
        revert hemp
        cases S.isEmpty <;> simp
      simp [hne]

/-- Claim C2: when the final re-check at creation time finds the chosen slot
busy, the stage becomes booking_conflict and the calendar's create
operation is not invoked; the subsequent conflict handling searches the
same date, its suggestion list never contains the conflicted time, is
capped at 8, and the stage becomes showing_alternative_slots when it is
non-empty and no_alternatives when it is empty. -/
theorem create_booking_conflict_flow
    (eventsOn : Int → List Event) (createResult : Option CreatedEvent) (avail : List Slot)
    (st : AgentState) (t : String) (td : DT)
    (hsel : st.entities.selected_time = some t) (ht : t ≠ "")
    (hpd : st.entities.parsed_date = some td)
    (htitle : st.entities.title.getD "Meeting" ≠ "")
    (hdur : st.entities.duration.getD "1 hour" ≠ "")
    (hbusy : is_slot_available eventsOn
        { day := td.day, hour := (parse_time t).1, minute := (parse_time t).2 }
        (DT.toAbs { day := td.day, hour := (parse_time t).1, minute := (parse_time t).2 }
          + parse_duration (st.entities.duration.getD "1 hour")) = false) :
    (create_booking_node eventsOn createResult st).2 = false
    ∧ (create_booking_node eventsOn createResult st).1.conversation_stage = "booking_conflict"
    ∧ ∃ L, (handle_conflict_node eventsOn avail
          (create_booking_node eventsOn createResult st).1).calendar_availability = some L
        ∧ L.length ≤ 8
        ∧ (∀ sl ∈ L, sl.start.day = td.day ∧ (sl.start.hour, sl.start.minute) ≠ parse_time t)
        ∧ (handle_conflict_node eventsOn avail
            (create_booking_node eventsOn createResult st).1).conversation_stage
            = (if L.isEmpty then "no_alternatives" else "showing_alternative_slots") := by
  have hcondb : (decide (st.entities.title.getD "Meeting" = "")
      || decide (st.entities.duration.getD "1 hour" = "") || decide (t = "")) = false := by
    simp [htitle, hdur, ht]
  have hnode : create_booking_node eventsOn createResult st
      = ({ st with
           conversation_stage := "booking_conflict",
           conflict_message := some ("The selected time slot (" ++ t
             ++ ") is no longer available") }, false) := by
    unfold create_booking_node
    simp only [hpd, hsel, Option.getD_some, hcondb, Bool.false_eq_true, if_false,
      hbusy, Bool.not_false, if_true]
  refine ⟨by rw [hnode], by rw [hnode], ?_⟩
  rw [hnode]
  exact handle_conflict_spec eventsOn avail _ td t (by simpa using hpd) (by simpa using hsel) ht

def c2Events : Int → List Event := fun _ => [{ startAbs := 50400000000, endAbs := 54000000000 }]

def c2Avail : List Slot :=
  [{ start := { day := 0, hour := 14, minute := 0 }, display := "02:00 PM" },
   { start := { day := 0, hour := 10, minute := 0 }, display := "10:00 AM" }]

def c2State : AgentState :=
  { entities :=
      { title := some "Sync", duration := some "1 hour",
        selected_time := some "2:00 PM", attendees_confirmed := true,
        parsed_date := some { day := 0, hour := 0, minute := 0 } } }

/-- Claim C2 witness: a 2:00 PM booking against a 2:00-3:00 PM event is
deflected to booking_conflict without creating, and the alternatives
exclude 2:00 PM. -/
theorem create_booking_conflict_flow_witness :
    (create_booking_node c2Events none c2State).2 = false
    ∧ (create_booking_node c2Events none c2State).1.conversation_stage = "booking_conflict"
    ∧ ∃ L, (handle_conflict_node c2Events c2Avail
          (create_booking_node c2Events none c2State).1).calendar_availability = some L
        ∧ L.length ≤ 8
        ∧ (∀ sl ∈ L, sl.start.day = (0 : Int) ∧ (sl.start.hour, sl.start.minute) ≠ parse_time "2:00 PM")
        ∧ (handle_conflict_node c2Events c2Avail
            (create_booking_node c2Events none c2State).1).conversation_stage
            = (if L.isEmpty then "no_alternatives" else "showing_alternative_slots") :=
  create_booking_conflict_flow c2Events none c2Avail c2State "2:00 PM"
    { day := 0, hour := 0, minute := 0 } rfl (by decide) rfl (by decide) (by decide) (by decide)

/-- Claim C4 counterexample: "nope" is treated as a cancellation (the AI
service's simple-rejection list adds it to the triggers), yet it matches
neither the claimed exact set nor the claimed substrings, refuting the
stated "exactly when". -/
theorem cancellation_trigger_cex :
    (extract_info_early "nope"
        { conversation_stage := "asking_duration",
          entities := { title := some "Sync" } }).map AgentState.conversation_stage
      = some "booking_cancelled"
    ∧ claimed_cancellation_trigger "nope" = false := by
  decide

/-- Claim C4 (amended): a message is treated as a cancellation exactly when
it is not first treated as a confirmation and, after trimming and
lowercasing, it exactly matches one of {no, nope, cancel, nevermind,
no thanks, not now, abort, stop} or contains one of {"no, cancel",
"no cancel", "cancel it"}; processing such a message sets the stage to
booking_cancelled, empties the extracted entities and nulls the calendar
availability. -/
theorem cancellation_trigger_amended :
    (∀ message : String,
      cancel_guard message
        = (!confirm_guard message
            && ((["no", "nope", "cancel", "nevermind", "no thanks", "not now", "abort", "stop"].any
                  (fun s => msgKey message == s.data))
                || (["no, cancel", "no cancel", "cancel it"].any
                  (fun s => containsSub s.data (msgKey message))))))
    ∧ ∀ (message : String) (st : AgentState), cancel_guard message = true →
        extract_info_early message st
          = some { st with
                   user_intent := "cancel_booking",
                   conversation_stage := "booking_cancelled",
                   entities := {},
                   calendar_availability := none,
                   current_booking := none,
                   booking_summary := none } := by
  constructor
  · intro m
    unfold cancel_guard
    cases hcg : confirm_guard m
    · simp only [Bool.not_false, Bool.true_and]
      rw [extract_intent_reject_iff]
      have hsc : is_simple_confirmation m = false := by
        cases h : is_simple_confirmation m
        · rfl
        · rw [confirm_guard_of_simple_confirmation h] at hcg
          cases hcg
      rw [hsc]
      simp only [Bool.not_false, Bool.true_and]
      rw [Bool.eq_iff_iff]
      unfold is_simple_rejection is_cancellation
      simp only [List.any_cons, List.any_nil, Bool.or_false, Bool.or_eq_true]
      tauto
    · simp
  · intro m st h
    unfold cancel_guard at h
    rw [Bool.and_eq_true] at h
    obtain ⟨hng, hcond⟩ := h
    have hcg : confirm_guard m = false := by
      cases hc : confirm_guard m
      · rfl
      · rw [hc] at hng
        cases hng
    simp only [extract_info_early, hcg, Bool.false_eq_true, if_false, hcond, if_true]

/-- Claim C4 witness: "cancel" mid-flow produces the cancelled, reset state. -/
theorem cancellation_trigger_amended_witness :
    extract_info_early "cancel" { conversation_stage := "asking_duration" }
      = some { ({ conversation_stage := "asking_duration" } : AgentState) with
               user_intent := "cancel_booking",
               conversation_stage := "booking_cancelled",
               entities := {},
               calendar_availability := none,
               current_booking := none,
               booking_summary := none } :=
  cancellation_trigger_amended.2 "cancel" _ (by decide)

def c3Now : DT := { day := 0, hour := 9, minute := 0 }

def c3Events : Int → List Event := fun _ => [{ startAbs := 50400000000, endAbs := 54000000000 }]

def c3Avail : List Slot :=
  [{ start := { day := 0, hour := 14, minute := 0 }, display := "02:00 PM" },
   { start := { day := 0, hour := 10, minute := 0 }, display := "10:00 AM" }]

def c3State : AgentState :=
  { entities :=
      { title := some "Sync", duration := some "1 hour",
        parsed_date := some { day := 0, hour := 0, minute := 0 },
        default_time := some "2:00 PM", generic_time_used := some "afternoon" } }

/-- Claim C3 witness: a busy "2:00 PM" default for "afternoon" falls through
to the search, whose suggestions exclude 2:00 PM. -/
theorem availability_check_flow_witness :
    ∃ L, (check_availability_node c3Now c3Events c3Avail c3State).calendar_availability = some L
      ∧ L.length ≤ 8
      ∧ (∀ sl ∈ L, (sl.start.hour, sl.start.minute) ≠ parse_time "2:00 PM")
      ∧ (check_availability_node c3Now c3Events c3Avail c3State).conversation_stage
          = (if L.isEmpty then "no_availability" else "showing_alternative_slots") :=
  ((availability_check_flow c3Now c3Events c3Avail).1 c3State "2:00 PM" "afternoon"
    rfl (by decide) rfl (by decide)).2 (by decide)
